import Mathlib

/-!
Shallow embedding of the rplaid Plaid API client (src/client.rs, src/api.rs,
src/model/common.rs, src/model/sandbox.rs, src/model/token.rs,
src/model/transactions.rs).

JSON bodies are modelled by an inductive `Json` type (the endpoint payloads in
the claims only use null, booleans, numbers, strings and objects).  The serde
codec capability becomes total Lean functions on `Json`; a serde failure is
`none` / `Except.error`.  The HTTP transport capability becomes a function
parameter from requests to outcomes.  A Rust panic (an `unwrap` of a failed
result) is modelled as `none` in an `Option`-valued result.
-/

namespace Rplaid

/-- JSON values as produced/consumed by the serde codec.  Arrays are omitted:
no field read by the claims has array type. -/
inductive Json where
  | null : Json
  | bool : Bool → Json
  | num : Nat → Json
  | str : String → Json
  | obj : List (String × Json) → Json

/-- Field lookup in a serde-style JSON object: the first binding with the
given key, if any. -/
def lookupField (fields : List (String × Json)) (name : String) : Option Json :=
  (fields.find? (fun p => p.1 == name)).map (fun p => p.2)

/-- The `ErrorType` enum of src/model/common.rs (SCREAMING_SNAKE_CASE on the
wire). -/
inductive ErrorType where
  | InvalidRequest : ErrorType
  | InvalidResult : ErrorType
  | InvalidInput : ErrorType
  | InstitutionError : ErrorType
  | RateLimitExceeded : ErrorType
  | ApiError : ErrorType
  | ItemError : ErrorType
  | AssetReportError : ErrorType
  | RecaptchaError : ErrorType
  | OauthError : ErrorType
  | PaymentError : ErrorType
  | BankTransferError : ErrorType
deriving DecidableEq, Repr

/-- serde deserialization of an `ErrorType` from its wire string. -/
def ErrorType.decode (s : String) : Option ErrorType :=
  if s == "INVALID_REQUEST" then some ErrorType.InvalidRequest
  else if s == "INVALID_RESULT" then some ErrorType.InvalidResult
  else if s == "INVALID_INPUT" then some ErrorType.InvalidInput
  else if s == "INSTITUTION_ERROR" then some ErrorType.InstitutionError
  else if s == "RATE_LIMIT_EXCEEDED" then some ErrorType.RateLimitExceeded
  else if s == "API_ERROR" then some ErrorType.ApiError
  else if s == "ITEM_ERROR" then some ErrorType.ItemError
  else if s == "ASSET_REPORT_ERROR" then some ErrorType.AssetReportError
  else if s == "RECAPTCHA_ERROR" then some ErrorType.RecaptchaError
  else if s == "OAUTH_ERROR" then some ErrorType.OauthError
  else if s == "PAYMENT_ERROR" then some ErrorType.PaymentError
  else if s == "BANK_TRANSFER_ERROR" then some ErrorType.BankTransferError
  else none

/-- The `ErrorResponse` struct of src/model/common.rs: every field optional
(`status` is a `u32`, modelled as `Nat`). -/
structure ErrorResponse where
  display_message : Option String
  documentation_url : Option String
  error_code : Option String
  error_message : Option String
  error_type : Option ErrorType
  request_id : Option String
  status : Option Nat
  suggested_action : Option String
deriving DecidableEq, Repr

/-- `ErrorResponse::default()` (the `Default` derive): all fields `None`. -/
def ErrorResponse.default : ErrorResponse :=
  { display_message := none, documentation_url := none, error_code := none,
    error_message := none, error_type := none, request_id := none,
    status := none, suggested_action := none }

/-- serde semantics of an `Option<String>` field: absent or `null` gives
`None`, a JSON string gives `Some`, any other shape is a deserialization
failure. -/
def decodeOptionalString : Option Json → Option (Option String)
  | none => some none
  | some Json.null => some none
  | some (Json.str s) => some (some s)
  | some _ => none

/-- serde semantics of an `Option<u32>` field. -/
def decodeOptionalNat : Option Json → Option (Option Nat)
  | none => some none
  | some Json.null => some none
  | some (Json.num n) => some (some n)
  | some _ => none

/-- serde semantics of an `Option<ErrorType>` field. -/
def decodeOptionalErrorType : Option Json → Option (Option ErrorType)
  | none => some none
  | some Json.null => some none
  | some (Json.str s) => (ErrorType.decode s).map some
  | some _ => none

/-- serde `Deserialize` for `ErrorResponse` (derived in src/model/common.rs):
a JSON object, each field read independently, unknown fields ignored. -/
def ErrorResponse.decode : Json → Option ErrorResponse
  | Json.obj fields => do
      let display_message ← decodeOptionalString (lookupField fields "display_message")
      let documentation_url ← decodeOptionalString (lookupField fields "documentation_url")
      let error_code ← decodeOptionalString (lookupField fields "error_code")
      let error_message ← decodeOptionalString (lookupField fields "error_message")
      let error_type ← decodeOptionalErrorType (lookupField fields "error_type")
      let request_id ← decodeOptionalString (lookupField fields "request_id")
      let status ← decodeOptionalNat (lookupField fields "status")
      let suggested_action ← decodeOptionalString (lookupField fields "suggested_action")
      some { display_message := display_message, documentation_url := documentation_url,
             error_code := error_code, error_message := error_message,
             error_type := error_type, request_id := request_id,
             status := status, suggested_action := suggested_action }
  | _ => none

/-- Errors of the underlying HTTP client library (`http_client::Error`, i.e.
`http_types::Error`): either a transport-level failure or the error that
`body_json` produces when reading/deserializing a response body (http-types
wraps the serde error into its own error type). -/
inductive HttpError where
  | connection : String → HttpError
  | deserialize : Json → HttpError

/-- `ClientError` of src/client.rs.  `Http` wraps `http_client::Error` (via
`From<HttpError>`), `Parse` wraps `serde_json::Error` (modelled by its
message, via `#[from] serde_json::Error`), `App` wraps a parsed
`ErrorResponse`. -/
inductive ClientError where
  | http : HttpError → ClientError
  | parse : String → ClientError
  | app : ErrorResponse → ClientError

/-- `Credentials` of src/client.rs. -/
structure Credentials where
  client_id : String
  secret : String

/-- `Environment` of src/client.rs. -/
inductive Environment where
  | Custom : String → Environment
  | Sandbox : Environment
  | Development : Environment
  | Production : Environment

def SANDBOX_DOMAIN : String := "https://sandbox.plaid.com"

def DEVELOPMENT_DOMAIN : String := "https://development.plaid.com"

def PRODUCTION_DOMAIN : String := "https://production.plaid.com"

/-- `Environment::to_string` of src/client.rs. -/
def Environment.toString : Environment → String
  | Environment.Sandbox => SANDBOX_DOMAIN
  | Environment.Development => DEVELOPMENT_DOMAIN
  | Environment.Production => PRODUCTION_DOMAIN
  | Environment.Custom s => s

/-- An endpoint descriptor: the `Endpoint` trait of src/model/common.rs
specialised to one concrete endpoint value.  `path` is `Endpoint::path`;
`payload` is the outcome of serde-serializing the request value (the body
built by `Body::from_json(&self)` in `Endpoint::payload`, or by
`serde_json::to_vec(&endpoint)` in src/api.rs — the same serde codec), with
`Except.error` carrying the `serde_json::Error` message; `decodeResponse` is
the serde `Deserialize` impl of the declared `Response` type. -/
structure Endpoint (ρ : Type) where
  path : String
  payload : Except String Json
  decodeResponse : Json → Option ρ

/-- A fully built HTTP request: URL, headers, JSON body. -/
structure HttpRequest where
  url : String
  headers : List (String × String)
  body : Json

/-- The outcome of `HttpClient::send`: a transport-level failure, or a
response carrying a status code and a body. -/
inductive TransportOutcome where
  | failure : HttpError → TransportOutcome
  | response : Nat → Json → TransportOutcome

/-- The `Plaid` client struct of src/client.rs minus its transport field;
the transport capability is passed to each call as a function. -/
structure Plaid where
  credentials : Credentials
  env : Environment

/-- `Plaid::request` of src/client.rs (lines 162-179), with the transport as
an explicit parameter.  Returns the call result together with the list of
requests actually handed to the transport.

The result is `none` when the code panics: `Endpoint::request` calls
`Endpoint::payload`, which unwraps `Body::from_json(&self)`, so a request
serialization failure panics before `self.http.send` is reached.

`match res.status()` treats exactly `StatusCode::Ok` (200) as the success
arm; every other status takes the `ErrorResponse` arm.  A failure of
`res.body_json::<T>()` has type `http_client::Error`, so the `?` operator
converts it with `From<HttpError> for ClientError`, i.e. to
`ClientError::Http`. -/
def Plaid.request {ρ : Type} (client : Plaid)
    (transport : HttpRequest → TransportOutcome) (endpoint : Endpoint ρ) :
    Option (Except ClientError ρ) × List HttpRequest :=
  match endpoint.payload with
  | Except.error _ => (none, [])
  | Except.ok body =>
      let post : HttpRequest :=
        { url := client.env.toString ++ endpoint.path,
          headers := [("Content-Type", "application/json"),
                      ("PLAID-CLIENT-ID", client.credentials.client_id),
                      ("PLAID-SECRET", client.credentials.secret)],
          body := body }
      match transport post with
      | TransportOutcome.failure e => (some (Except.error (ClientError.http e)), [post])
      | TransportOutcome.response status rbody =>
          if status = 200 then
            match endpoint.decodeResponse rbody with
            | some v => (some (Except.ok v), [post])
            | none => (some (Except.error (ClientError.http (HttpError.deserialize rbody))), [post])
          else
            match ErrorResponse.decode rbody with
            | some er => (some (Except.error (ClientError.app er)), [post])
            | none => (some (Except.error (ClientError.http (HttpError.deserialize rbody))), [post])

/-- `ResetLoginResponse` of src/model/sandbox.rs. -/
structure ResetLoginResponse where
  reset_login : Bool
deriving DecidableEq, Repr

/-- serde `Deserialize` for `ResetLoginResponse`: the `reset_login` field is
mandatory and must be a boolean. -/
def ResetLoginResponse.decode : Json → Option ResetLoginResponse
  | Json.obj fields =>
      match lookupField fields "reset_login" with
      | some (Json.bool b) => some { reset_login := b }
      | _ => none
  | _ => none

/-- The endpoint descriptor of `ResetLoginRequest { access_token }`
(src/model/sandbox.rs): path `/sandbox/item/reset_login`, body
`{"access_token": ...}` (string fields always serialize), response type
`ResetLoginResponse`. -/
def ResetLoginRequest.endpoint (access_token : String) : Endpoint ResetLoginResponse :=
  { path := "/sandbox/item/reset_login",
    payload := Except.ok (Json.obj [("access_token", Json.str access_token)]),
    decodeResponse := ResetLoginResponse.decode }

/-- `Plaid::reset_login` of src/client.rs (lines 231-243): dispatch the
reset-login endpoint, then gate success on the `reset_login` boolean of the
body, synthesizing an `ErrorResponse` with a fixed message when it is
false. -/
def Plaid.reset_login (client : Plaid)
    (transport : HttpRequest → TransportOutcome) (access_token : String) :
    Option (Except ClientError Unit) × List HttpRequest :=
  match Plaid.request client transport (ResetLoginRequest.endpoint access_token) with
  | (none, trace) => (none, trace)
  | (some (Except.error e), trace) => (some (Except.error e), trace)
  | (some (Except.ok res), trace) =>
      if res.reset_login then (some (Except.ok ()), trace)
      else
        (some (Except.error (ClientError.app
          { ErrorResponse.default with error_message := some "failed to reset login" })), trace)

/-- `CreateLinkTokenResponse` of src/model/token.rs: three mandatory string
fields. -/
structure CreateLinkTokenResponse where
  link_token : String
  expiration : String
  request_id : String
deriving DecidableEq, Repr

/-- serde string-field accessor: mandatory `String` field, must be present as
a JSON string. -/
def decodeRequiredString (fields : List (String × Json)) (name : String) : Option String :=
  match lookupField fields name with
  | some (Json.str s) => some s
  | _ => none

/-- serde `Deserialize` for `CreateLinkTokenResponse`. -/
def CreateLinkTokenResponse.decode : Json → Option CreateLinkTokenResponse
  | Json.obj fields => do
      let link_token ← decodeRequiredString fields "link_token"
      let expiration ← decodeRequiredString fields "expiration"
      let request_id ← decodeRequiredString fields "request_id"
      some { link_token := link_token, expiration := expiration, request_id := request_id }
  | _ => none

/-- `http::StatusCode::is_success`: the 2xx range. -/
def StatusCode.is_success (status : Nat) : Bool :=
  decide (200 ≤ status ∧ status < 300)

/-- An `http::Response` as consumed by the sans-io helpers of src/api.rs:
status code plus body. -/
structure HttpResponse where
  status : Nat
  body : Json

/-- `api::create_link_token_response` of src/api.rs (lines 21-29): on a
success status, `serde_json::from_slice(body).unwrap()` into
`CreateLinkTokenResponse`; otherwise `unwrap()` into `ErrorResponse`.  The
`unwrap` panics on a deserialization failure, modelled as `none`. -/
def create_link_token_response (res : HttpResponse) :
    Option (Except ErrorResponse CreateLinkTokenResponse) :=
  if StatusCode.is_success res.status then
    (CreateLinkTokenResponse.decode res.body).map Except.ok
  else
    (ErrorResponse.decode res.body).map Except.error

/-- `api::Conf` of src/api.rs. -/
structure Conf where
  credentials : Credentials
  environment : Environment

/-- `api::request` of src/api.rs (lines 31-46): build the request without any
network call.  `serde_json::to_vec(&endpoint)?` surfaces a serialization
failure as `ClientError::Parse` (the `#[from] serde_json::Error`
conversion).  The URL is the environment authority plus the endpoint path
(the `Uri` builder with its forced `https` scheme is not modelled further;
no claim depends on URL syntax). -/
def api.request {ρ : Type} (cfg : Conf) (endpoint : Endpoint ρ) :
    Except ClientError HttpRequest :=
  match endpoint.payload with
  | Except.error msg => Except.error (ClientError.parse msg)
  | Except.ok body =>
      Except.ok
        { url := cfg.environment.toString ++ endpoint.path,
          headers := [("PLAID-CLIENT-ID", cfg.credentials.client_id),
                      ("PLAID-SECRET", cfg.credentials.secret),
                      ("Content-Type", "application/json")],
          body := body }

/-- `GetTransactionsOptions` of src/model/transactions.rs (`count` and
`offset` are `usize`). -/
structure GetTransactionsOptions where
  account_ids : Option String
  count : Option Nat
  offset : Option Nat
  include_original_description : Option String
deriving DecidableEq, Repr

/-- `GetTransactionsRequest` of src/model/transactions.rs (the string-like
type parameter instantiated at `String`). -/
structure GetTransactionsRequest where
  access_token : String
  start_date : String
  end_date : String
  options : Option GetTransactionsOptions
deriving DecidableEq, Repr

/-- `GetTransactionsResponse` of src/model/transactions.rs, generic over the
transaction entry type: the iterator only ever takes the length of
`transactions`, so the (float-carrying) `Transaction` struct is abstracted
to a type parameter, and the `accounts`, `item` and `request_id` fields —
never read by any claim's code — are omitted. -/
structure GetTransactionsResponse (τ : Type) where
  transactions : List τ
  total_transactions : Nat

/-- The local state of the `transactions_iter` generator of src/client.rs
(lines 506-536): the cloned base request and the mutable `yielded`,
`total_xacts`, `count` and `offset` variables. -/
structure TxIterState where
  request : GetTransactionsRequest
  yielded : Nat
  total_xacts : Option Nat
  count : Nat
  offset : Nat
deriving DecidableEq, Repr

/-- Initialization of `transactions_iter` (src/client.rs lines 507-511):
`req.options.as_ref().unwrap()` panics (`none`) when the caller supplied no
options; otherwise `count` defaults to 100 and `offset` to 0 when the
respective option field is absent. -/
def transactions_iter_init (req : GetTransactionsRequest) : Option TxIterState :=
  match req.options with
  | none => none
  | some opts =>
      some { request := req, yielded := 0, total_xacts := none,
             count := opts.count.getD 100, offset := opts.offset.getD 0 }

/-- The per-page request (src/client.rs lines 514-524): the base request with
its options' `count` and `offset` overwritten by the iterator's current
cursor (the `else` arm builds fresh options when the base request has
none). -/
def TxIterState.pageRequest (s : TxIterState) : GetTransactionsRequest :=
  { s.request with
    options := some (
      match s.request.options with
      | some opts => { opts with count := some s.count, offset := some s.offset }
      | none =>
          { account_ids := none, count := some s.count, offset := some s.offset,
            include_original_description := none }) }

/-- The `while` condition of src/client.rs line 513:
`total_xacts.is_none() || total_xacts.unwrap() > yielded`, evaluated before
each page fetch. -/
def TxIterState.shouldFetch (s : TxIterState) : Bool :=
  match s.total_xacts with
  | none => true
  | some t => decide (t > s.yielded)

/-- One observable step of the transaction stream: exhausted, one yielded
batch with a successor state, or a terminating error. -/
inductive TxStep (τ : Type) where
  | done : TxStep τ
  | yield : List τ → TxIterState → TxStep τ
  | fail : ClientError → TxStep τ

/-- One iteration of the `transactions_iter` loop (src/client.rs lines
513-534), with `fetch` standing for `self.transactions(&request)`.  The
second component counts the dispatch calls made during the step.  On a
response the first observation records `total_transactions - offset` (Rust
`usize` subtraction; the claims' hypotheses keep it non-underflowing), then
`yielded += batch length` and `offset += yielded` with the updated
`yielded`. -/
def txStep {τ : Type}
    (fetch : GetTransactionsRequest → Except ClientError (GetTransactionsResponse τ))
    (s : TxIterState) : TxStep τ × Nat :=
  if s.shouldFetch then
    match fetch s.pageRequest with
    | Except.error e => (TxStep.fail e, 1)
    | Except.ok res =>
        let total :=
          match s.total_xacts with
          | none => res.total_transactions - s.offset
          | some t => t
        let yielded := s.yielded + res.transactions.length
        (TxStep.yield res.transactions
          { s with total_xacts := some total, yielded := yielded,
                   offset := s.offset + yielded }, 1)
  else (TxStep.done, 0)

/-- Driving the stream to completion under a fuel bound: the list of items a
consumer draining the stream sees (`Ok` batches, then at most one trailing
`Err`), together with the total number of dispatch calls.  `try_stream!`
ends the stream right after yielding an error. -/
def txDrain {τ : Type}
    (fetch : GetTransactionsRequest → Except ClientError (GetTransactionsResponse τ)) :
    Nat → TxIterState → List (Except ClientError (List τ)) × Nat
  | 0, _ => ([], 0)
  | Nat.succ fuel, s =>
      match txStep fetch s with
      | (TxStep.done, n) => ([], n)
      | (TxStep.fail e, n) => ([Except.error e], n)
      | (TxStep.yield b s2, n) =>
          let rest := txDrain fetch fuel s2
          (Except.ok b :: rest.1, n + rest.2)

/-- A descriptor whose request value fails serde serialization (e.g. a body
with a non-string map key); `payload` carries the serde error message.  Used
to exercise the serialization-failure path of the dispatcher and of
`api::request`. -/
def failedSerializationEndpoint : Endpoint Unit :=
  { path := "/link/token/create",
    payload := Except.error "key must be a string",
    decodeResponse := fun _ => none }

/-- A representative client instance for concrete evaluations. -/
def sandboxClient : Plaid :=
  { credentials := { client_id := "id", secret := "sec" }, env := Environment.Sandbox }

/-- A representative sans-io configuration for concrete evaluations. -/
def sandboxConf : Conf :=
  { credentials := { client_id := "id", secret := "sec" },
    environment := Environment.Sandbox }

/-- A base transaction request with explicit paging options (count 10,
offset 5), as in the repository's `can_drain_transaction_stream` test. -/
def witnessTxRequest : GetTransactionsRequest :=
  { access_token := "tok", start_date := "2019-09-01", end_date := "2021-09-05",
    options := some { account_ids := none, count := some 10, offset := some 5,
                      include_original_description := none } }

/-- The iterator state produced by initializing on `witnessTxRequest`. -/
def witnessTxState : TxIterState :=
  { request := witnessTxRequest, yielded := 0, total_xacts := none,
    count := 10, offset := 5 }

/-- An already exhausted iterator state: the recorded target remaining total
has been reached by the cumulative yielded count. -/
def exhaustedTxState : TxIterState :=
  { request := witnessTxRequest, yielded := 7, total_xacts := some 7,
    count := 10, offset := 12 }

/-- A base transaction request with no paging options at all. -/
def noOptionsTxRequest : GetTransactionsRequest :=
  { access_token := "tok", start_date := "2021-09-01", end_date := "2021-09-05",
    options := none }

/-- A base transaction request whose options leave `count` and `offset`
absent. -/
def emptyOptionsTxRequest : GetTransactionsRequest :=
  { access_token := "tok", start_date := "2021-09-01", end_date := "2021-09-05",
    options := some { account_ids := none, count := none, offset := none,
                      include_original_description := none } }

/-- A concrete response page: two transactions (entries abstracted to
`Unit`) out of a reported total of 12. -/
def twoTxnPage : GetTransactionsResponse Unit :=
  { transactions := [(), ()], total_transactions := 12 }

/-- A dispatch stub returning `twoTxnPage` for every page request. -/
def txPageOk : GetTransactionsRequest → Except ClientError (GetTransactionsResponse Unit) :=
  fun _ => Except.ok twoTxnPage

/-- A dispatch stub failing every page request with a transport error. -/
def txFetchRefused : GetTransactionsRequest → Except ClientError (GetTransactionsResponse Unit) :=
  fun _ => Except.error (ClientError.http (HttpError.connection "connection refused"))

/-! ## Theorems -/

/-- C1 counterexample: a response with status 201 — a 2xx success status —
whose body is valid for the declared response type is NOT returned as `Ok`:
`Plaid::request` matches only `StatusCode::Ok` (200), so the 201 response is
deserialized as an `ErrorResponse` (all fields absent) and surfaced as
`ClientError::App`. -/
theorem request_status_201_not_ok :
    (ResetLoginRequest.endpoint "token").decodeResponse
        (Json.obj [("reset_login", Json.bool true)]) = some { reset_login := true }
    ∧ (Plaid.request sandboxClient
        (fun _ => TransportOutcome.response 201 (Json.obj [("reset_login", Json.bool true)]))
        (ResetLoginRequest.endpoint "token")).1
      = some (Except.error (ClientError.app ErrorResponse.default)) :=
  ⟨rfl, rfl⟩

/-- C1 (amended): dispatch treats exactly status 200 as success: on a 200
response whose body deserializes to the declared response type the value is
returned as `Ok`; on any other status — other 2xx codes included — the
result is never `Ok`. -/
theorem request_success_only_status_200 {ρ : Type} (client : Plaid) (endpoint : Endpoint ρ)
    (b body : Json) (status : Nat) (v : ρ)
    (hp : endpoint.payload = Except.ok b) :
    (status = 200 → endpoint.decodeResponse body = some v →
      (Plaid.request client (fun _ => TransportOutcome.response status body) endpoint).1
        = some (Except.ok v))
    ∧ (status ≠ 200 →
      (Plaid.request client (fun _ => TransportOutcome.response status body) endpoint).1
        ≠ some (Except.ok v)) := by
  constructor
  · intro h200 hdec
    subst h200
    simp [Plaid.request, hp, hdec]
  · intro hne
    simp only [Plaid.request, hp]
    cases hER : ErrorResponse.decode body <;> simp [hne, hER]

/-- C1 witness: the amended theorem applied at a concrete 200 response. -/
theorem request_success_only_status_200_witness :
    (Plaid.request sandboxClient
        (fun _ => TransportOutcome.response 200 (Json.obj [("reset_login", Json.bool true)]))
        (ResetLoginRequest.endpoint "tok")).1
      = some (Except.ok { reset_login := true }) :=
  (request_success_only_status_200 sandboxClient (ResetLoginRequest.endpoint "tok")
    (Json.obj [("access_token", Json.str "tok")])
    (Json.obj [("reset_login", Json.bool true)]) 200 { reset_login := true } rfl).1 rfl rfl

/-- C2: at a concrete body that fails deserialization, dispatch returns
`ClientError::Http` — not `ClientError::Parse` as the claim (and the doc
comment of `ClientError::Parse`) says: the failure of `res.body_json` has
the HTTP client library's error type, so the `?` operator routes it through
`From<HttpError>`.  This holds both on the success-status arm (body fails to
deserialize to the response type) and on the non-success arm (body fails to
deserialize to `ErrorResponse`); no default `ErrorResponse` is ever
constructed. -/
theorem request_undecodable_body_is_http_error :
    (Plaid.request sandboxClient
        (fun _ => TransportOutcome.response 200 (Json.str "oops"))
        (ResetLoginRequest.endpoint "tok")).1
      = some (Except.error (ClientError.http (HttpError.deserialize (Json.str "oops"))))
    ∧ (Plaid.request sandboxClient
        (fun _ => TransportOutcome.response 400 (Json.str "oops"))
        (ResetLoginRequest.endpoint "tok")).1
      = some (Except.error (ClientError.http (HttpError.deserialize (Json.str "oops")))) :=
  ⟨rfl, rfl⟩

/-- C4 counterexample: on a descriptor whose body fails to serialize,
`Plaid::request` does not return `ClientError::Parse`: `Endpoint::payload`
unwraps the failed serialization, so the dispatcher panics (result `none`).
The transport is indeed never invoked (empty trace). -/
theorem request_serialize_failure_panics :
    Plaid.request sandboxClient
      (fun _ => TransportOutcome.failure (HttpError.connection "unreachable"))
      failedSerializationEndpoint = (none, []) :=
  rfl

/-- C4 (amended): when the request body fails to serialize, the dispatcher
panics before any network call (the transport receives no request), rather
than returning `ClientError::Parse`; the sans-io builder `api::request`
does surface the same failure as `ClientError::Parse`, likewise without any
network call. -/
theorem request_serialize_failure_no_network {ρ : Type} (client : Plaid)
    (transport : HttpRequest → TransportOutcome) (cfg : Conf)
    (endpoint : Endpoint ρ) (msg : String)
    (hp : endpoint.payload = Except.error msg) :
    Plaid.request client transport endpoint = (none, [])
    ∧ api.request cfg endpoint = Except.error (ClientError.parse msg) := by
  constructor
  · simp [Plaid.request, hp]
  · simp [api.request, hp]

/-- C4 witness: the amended theorem at the concrete failing descriptor. -/
theorem request_serialize_failure_no_network_witness :
    Plaid.request sandboxClient
        (fun _ => TransportOutcome.failure (HttpError.connection "unreachable"))
        failedSerializationEndpoint = (none, [])
    ∧ api.request sandboxConf failedSerializationEndpoint
      = Except.error (ClientError.parse "key must be a string") :=
  request_serialize_failure_no_network sandboxClient
    (fun _ => TransportOutcome.failure (HttpError.connection "unreachable"))
    sandboxConf failedSerializationEndpoint "key must be a string" rfl

theorem decodeOptionalString_absent {r : Option String}
    (h : decodeOptionalString none = some r) : r = none :=
  (Option.some.inj h).symm

theorem decodeOptionalString_present {v : String} {r : Option String}
    (h : decodeOptionalString (some (Json.str v)) = some r) : r = some v :=
  (Option.some.inj h).symm

theorem decodeOptionalNat_absent {r : Option Nat}
    (h : decodeOptionalNat none = some r) : r = none :=
  (Option.some.inj h).symm

theorem decodeOptionalNat_present {n : Nat} {r : Option Nat}
    (h : decodeOptionalNat (some (Json.num n)) = some r) : r = some n :=
  (Option.some.inj h).symm

theorem decodeOptionalErrorType_absent {r : Option ErrorType}
    (h : decodeOptionalErrorType none = some r) : r = none :=
  (Option.some.inj h).symm

theorem decodeOptionalErrorType_present {s : String} {t : ErrorType} {r : Option ErrorType}
    (h : decodeOptionalErrorType (some (Json.str s)) = some r)
    (ht : ErrorType.decode s = some t) : r = some t := by
  simp only [decodeOptionalErrorType, ht, Option.map_some] at h
  exact (Option.some.inj h).symm

/-- Splitting the `ErrorResponse` deserializer into its eight field reads. -/
theorem ErrorResponse.decode_obj_eq_some {fields : List (String × Json)} {er : ErrorResponse}
    (hd : ErrorResponse.decode (Json.obj fields) = some er) :
    decodeOptionalString (lookupField fields "display_message") = some er.display_message
    ∧ decodeOptionalString (lookupField fields "documentation_url") = some er.documentation_url
    ∧ decodeOptionalString (lookupField fields "error_code") = some er.error_code
    ∧ decodeOptionalString (lookupField fields "error_message") = some er.error_message
    ∧ decodeOptionalErrorType (lookupField fields "error_type") = some er.error_type
    ∧ decodeOptionalString (lookupField fields "request_id") = some er.request_id
    ∧ decodeOptionalNat (lookupField fields "status") = some er.status
    ∧ decodeOptionalString (lookupField fields "suggested_action") = some er.suggested_action := by
  simp only [ErrorResponse.decode, bind, Option.bind_eq_some, Option.some.injEq] at hd
  obtain ⟨dm, hdm, du, hdu, ec, hec, em, hem, et, het, ri, hri, st, hst, sa, hsa, her⟩ := hd
  subst her
  exact ⟨hdm, hdu, hec, hem, het, hri, hst, hsa⟩

/-- C3: a dispatch receiving a non-success (non-2xx) status whose body is
well-formed `ErrorResponse` JSON returns `ClientError::App` carrying the
parsed `ErrorResponse`, in which every field present in the body (with its
declared type) is preserved exactly and every absent field is `None`. -/
theorem request_app_error_preserves_fields {ρ : Type} (client : Plaid) (endpoint : Endpoint ρ)
    (b : Json) (status : Nat) (fields : List (String × Json)) (er : ErrorResponse)
    (hp : endpoint.payload = Except.ok b)
    (hs : ¬ (200 ≤ status ∧ status < 300))
    (hd : ErrorResponse.decode (Json.obj fields) = some er) :
    (Plaid.request client (fun _ => TransportOutcome.response status (Json.obj fields)) endpoint).1
      = some (Except.error (ClientError.app er))
    ∧ (lookupField fields "display_message" = none → er.display_message = none)
    ∧ (∀ v, lookupField fields "display_message" = some (Json.str v) → er.display_message = some v)
    ∧ (lookupField fields "documentation_url" = none → er.documentation_url = none)
    ∧ (∀ v, lookupField fields "documentation_url" = some (Json.str v) → er.documentation_url = some v)
    ∧ (lookupField fields "error_code" = none → er.error_code = none)
    ∧ (∀ v, lookupField fields "error_code" = some (Json.str v) → er.error_code = some v)
    ∧ (lookupField fields "error_message" = none → er.error_message = none)
    ∧ (∀ v, lookupField fields "error_message" = some (Json.str v) → er.error_message = some v)
    ∧ (lookupField fields "error_type" = none → er.error_type = none)
    ∧ (∀ s t, lookupField fields "error_type" = some (Json.str s) →
        ErrorType.decode s = some t → er.error_type = some t)
    ∧ (lookupField fields "request_id" = none → er.request_id = none)
    ∧ (∀ v, lookupField fields "request_id" = some (Json.str v) → er.request_id = some v)
    ∧ (lookupField fields "status" = none → er.status = none)
    ∧ (∀ n, lookupField fields "status" = some (Json.num n) → er.status = some n)
    ∧ (lookupField fields "suggested_action" = none → er.suggested_action = none)
    ∧ (∀ v, lookupField fields "suggested_action" = some (Json.str v) → er.suggested_action = some v) := by
  have h200 : status ≠ 200 := by
    intro h
    exact hs (by simp [h])
  obtain ⟨hdm, hdu, hec, hem, het, hri, hst, hsa⟩ := ErrorResponse.decode_obj_eq_some hd
  refine ⟨by simp [Plaid.request, hp, h200, hd], ?_⟩
  exact ⟨fun h => decodeOptionalString_absent (h ▸ hdm),
    fun v h => decodeOptionalString_present (h ▸ hdm),
    fun h => decodeOptionalString_absent (h ▸ hdu),
    fun v h => decodeOptionalString_present (h ▸ hdu),
    fun h => decodeOptionalString_absent (h ▸ hec),
    fun v h => decodeOptionalString_present (h ▸ hec),
    fun h => decodeOptionalString_absent (h ▸ hem),
    fun v h => decodeOptionalString_present (h ▸ hem),
    fun h => decodeOptionalErrorType_absent (h ▸ het),
    fun s t h ht2 => decodeOptionalErrorType_present (h ▸ het) ht2,
    fun h => decodeOptionalString_absent (h ▸ hri),
    fun v h => decodeOptionalString_present (h ▸ hri),
    fun h => decodeOptionalNat_absent (h ▸ hst),
    fun n h => decodeOptionalNat_present (h ▸ hst),
    fun h => decodeOptionalString_absent (h ▸ hsa),
    fun v h => decodeOptionalString_present (h ▸ hsa)⟩

/-- C3 witness: the theorem at a concrete 400 response carrying a partially
populated `ErrorResponse` body. -/
theorem request_app_error_preserves_fields_witness :
    (Plaid.request sandboxClient
        (fun _ => TransportOutcome.response 400
          (Json.obj [("error_type", Json.str "INVALID_REQUEST"),
                     ("error_message", Json.str "bad token"),
                     ("status", Json.num 400)]))
        (ResetLoginRequest.endpoint "tok")).1
      = some (Except.error (ClientError.app
          { ErrorResponse.default with
              error_message := some "bad token",
              error_type := some ErrorType.InvalidRequest,
              status := some 400 })) :=
  (request_app_error_preserves_fields sandboxClient (ResetLoginRequest.endpoint "tok")
    (Json.obj [("access_token", Json.str "tok")]) 400
    [("error_type", Json.str "INVALID_REQUEST"),
     ("error_message", Json.str "bad token"),
     ("status", Json.num 400)]
    { ErrorResponse.default with
        error_message := some "bad token",
        error_type := some ErrorType.InvalidRequest,
        status := some 400 }
    rfl (by decide) rfl).1

/-- C9 counterexample: with status 201 — a 2xx success status — and body
`{"reset_login": false}`, `reset_login` does not return the fixed message:
dispatch sends the 201 response down the `ErrorResponse` arm, the body
parses as an `ErrorResponse` with every field absent, and the surfaced
`ClientError::App` has `error_message = None`. -/
theorem reset_login_status_201_counterexample :
    (Plaid.reset_login sandboxClient
        (fun _ => TransportOutcome.response 201 (Json.obj [("reset_login", Json.bool false)]))
        "tok").1
      = some (Except.error (ClientError.app ErrorResponse.default))
    ∧ ErrorResponse.default.error_message ≠ some "failed to reset login" :=
  ⟨rfl, by simp [ErrorResponse.default]⟩

/-- C9 (amended): when dispatch succeeds — which happens exactly on status
200 — `reset_login` gates on the body's `reset_login` boolean: `false`
yields `ClientError::App` with the fixed `error_message`
"failed to reset login", `true` yields `Ok(())`. -/
theorem reset_login_boolean_gate (client : Plaid) (tok : String) (body : Json) (b : Bool)
    (hd : ResetLoginResponse.decode body = some { reset_login := b }) :
    (Plaid.reset_login client (fun _ => TransportOutcome.response 200 body) tok).1
      = some (if b then Except.ok ()
          else Except.error (ClientError.app
            { ErrorResponse.default with error_message := some "failed to reset login" })) := by
  simp only [Plaid.reset_login, Plaid.request, ResetLoginRequest.endpoint]
  simp [hd]
  cases b <;> simp

/-- C9 witness: the amended theorem at a concrete 200 response with
`reset_login` false. -/
theorem reset_login_boolean_gate_witness :
    (Plaid.reset_login sandboxClient
        (fun _ => TransportOutcome.response 200 (Json.obj [("reset_login", Json.bool false)]))
        "tok").1
      = some (Except.error (ClientError.app
          { ErrorResponse.default with error_message := some "failed to reset login" })) := by
  have h := reset_login_boolean_gate sandboxClient "tok"
    (Json.obj [("reset_login", Json.bool false)]) false rfl
  simpa using h

/-- C10: `api::create_link_token_response` returns the parsed success value
on a 2xx status with a body valid for `CreateLinkTokenResponse`, returns the
parsed `ErrorResponse` as `Err` on a non-2xx status with a valid error body,
and panics (is not total, modelled `none`) whenever the respective
deserialization fails. -/
theorem create_link_token_response_spec (res : HttpResponse) :
    (∀ v, StatusCode.is_success res.status = true →
        CreateLinkTokenResponse.decode res.body = some v →
        create_link_token_response res = some (Except.ok v))
    ∧ (StatusCode.is_success res.status = true →
        CreateLinkTokenResponse.decode res.body = none →
        create_link_token_response res = none)
    ∧ (∀ er, StatusCode.is_success res.status = false →
        ErrorResponse.decode res.body = some er →
        create_link_token_response res = some (Except.error er))
    ∧ (StatusCode.is_success res.status = false →
        ErrorResponse.decode res.body = none →
        create_link_token_response res = none) := by
  refine ⟨?_, ?_, ?_, ?_⟩
  · intro v hs hd
    simp [create_link_token_response, hs, hd]
  · intro hs hd
    simp [create_link_token_response, hs, hd]
  · intro er hs hd
    simp [create_link_token_response, hs, hd]
  · intro hs hd
    simp [create_link_token_response, hs, hd]

/-- C10 witness: the theorem at a concrete 200 response with a valid body
and at a concrete 599 response with an undecodable body. -/
theorem create_link_token_response_spec_witness :
    create_link_token_response
        ⟨200, Json.obj [("link_token", Json.str "lt"), ("expiration", Json.str "e"),
                        ("request_id", Json.str "r")]⟩
      = some (Except.ok { link_token := "lt", expiration := "e", request_id := "r" })
    ∧ create_link_token_response ⟨599, Json.str "oops"⟩ = none :=
  ⟨(create_link_token_response_spec
      ⟨200, Json.obj [("link_token", Json.str "lt"), ("expiration", Json.str "e"),
                      ("request_id", Json.str "r")]⟩).1
      { link_token := "lt", expiration := "e", request_id := "r" } (by decide) rfl,
   (create_link_token_response_spec ⟨599, Json.str "oops"⟩).2.2.2 (by decide) rfl⟩

/-- C5: on a response, the iterator records `total_transactions - offset` as
the target remaining total the first time a response is observed (with the
offset still at its initial value at that point) and keeps it unchanged
afterwards; on every response the cumulative yielded count grows by the
batch length and the offset advances by the cumulative yielded count so far
(not merely by the batch length).  The `≤` hypothesis rules out the `usize`
underflow panic of the Rust subtraction. -/
theorem txStep_bookkeeping {τ : Type}
    (fetch : GetTransactionsRequest → Except ClientError (GetTransactionsResponse τ))
    (s : TxIterState) (res : GetTransactionsResponse τ)
    (hc : s.shouldFetch = true)
    (hf : fetch s.pageRequest = Except.ok res)
    (hofs : s.offset ≤ res.total_transactions) :
    ∃ s2, txStep fetch s = (TxStep.yield res.transactions s2, 1)
      ∧ s2.yielded = s.yielded + res.transactions.length
      ∧ s2.offset = s.offset + s2.yielded
      ∧ (s.total_xacts = none →
          s2.total_xacts = some (res.total_transactions - s.offset)
          ∧ res.total_transactions - s.offset + s.offset = res.total_transactions)
      ∧ (∀ t, s.total_xacts = some t → s2.total_xacts = some t) := by
  refine ⟨{ s with
      total_xacts := some (match s.total_xacts with
        | none => res.total_transactions - s.offset
        | some t => t),
      yielded := s.yielded + res.transactions.length,
      offset := s.offset + (s.yielded + res.transactions.length) }, ?_, rfl, rfl, ?_, ?_⟩
  · simp [txStep, hc, hf]
  · intro h
    rw [h]
    exact ⟨rfl, Nat.sub_add_cancel hofs⟩
  · intro t h
    rw [h]

/-- C5 witness: the bookkeeping theorem at the first step of a concretely
initialized iterator. -/
theorem txStep_bookkeeping_witness :
    ∃ s2, txStep txPageOk witnessTxState = (TxStep.yield twoTxnPage.transactions s2, 1)
      ∧ s2.yielded = witnessTxState.yielded + twoTxnPage.transactions.length
      ∧ s2.offset = witnessTxState.offset + s2.yielded
      ∧ (witnessTxState.total_xacts = none →
          s2.total_xacts = some (twoTxnPage.total_transactions - witnessTxState.offset)
          ∧ twoTxnPage.total_transactions - witnessTxState.offset + witnessTxState.offset
              = twoTxnPage.total_transactions)
      ∧ (∀ t, witnessTxState.total_xacts = some t → s2.total_xacts = some t) :=
  txStep_bookkeeping txPageOk witnessTxState twoTxnPage rfl rfl (by decide)

/-- C6: once the recorded target remaining total is met or exceeded by the
cumulative yielded count, the loop condition — evaluated before any fetch —
fails: the step is `done`, performs zero dispatch calls, and draining the
stream from such a state produces no further elements whatever the fuel. -/
theorem txStep_exhausted_no_fetch {τ : Type}
    (fetch : GetTransactionsRequest → Except ClientError (GetTransactionsResponse τ))
    (s : TxIterState) (t fuel : Nat)
    (ht : s.total_xacts = some t) (hy : t ≤ s.yielded) :
    txStep fetch s = (TxStep.done, 0) ∧ txDrain fetch fuel s = ([], 0) := by
  have hsf : s.shouldFetch = false := by
    simp [TxIterState.shouldFetch, ht]
    omega
  constructor
  · simp [txStep, hsf]
  · cases fuel with
    | zero => rfl
    | succ n => simp [txDrain, txStep, hsf]

/-- C6 witness: the exhaustion theorem at a concrete exhausted state, with a
dispatch stub that would fail if it were ever consulted. -/
theorem txStep_exhausted_no_fetch_witness :
    txStep txFetchRefused exhaustedTxState = (TxStep.done, 0)
    ∧ txDrain txFetchRefused 5 exhaustedTxState = ([], 0) :=
  txStep_exhausted_no_fetch txFetchRefused exhaustedTxState 7 5 rfl (by decide)

/-- C7: `transactions_iter` does not apply the documented defaults when the
caller supplies no paging options: `req.options.as_ref().unwrap()` panics on
`options: None` (the generator's own `None`-handling arm is unreachable),
while the defaults `count = 100`, `offset = 0` take effect only when an
options record is supplied with those fields absent. -/
theorem transactions_iter_init_options_none_panics :
    transactions_iter_init noOptionsTxRequest = none
    ∧ transactions_iter_init emptyOptionsTxRequest
      = some { request := emptyOptionsTxRequest, yielded := 0, total_xacts := none,
               count := 100, offset := 0 } :=
  ⟨rfl, rfl⟩

/-- C8: if a page's dispatch fails — the loop condition holding, as it does
in particular for every freshly initialized iterator — draining the stream
yields exactly one element, the error, after exactly one dispatch call, and
nothing afterwards; a first-page failure therefore yields zero transaction
batches and exactly one error. -/
theorem txDrain_error_terminates {τ : Type}
    (fetch : GetTransactionsRequest → Except ClientError (GetTransactionsResponse τ))
    (e : ClientError) (fuel : Nat) :
    (∀ s : TxIterState, s.shouldFetch = true → fetch s.pageRequest = Except.error e →
        txDrain fetch (fuel + 1) s = ([Except.error e], 1))
    ∧ (∀ req s0, transactions_iter_init req = some s0 →
        fetch s0.pageRequest = Except.error e →
        txDrain fetch (fuel + 1) s0 = ([Except.error e], 1)) := by
  have main : ∀ s : TxIterState, s.shouldFetch = true →
      fetch s.pageRequest = Except.error e →
      txDrain fetch (fuel + 1) s = ([Except.error e], 1) := by
    intro s hc hf
    simp [txDrain, txStep, hc, hf]
  refine ⟨main, ?_⟩
  intro req s0 hinit hf
  have hc : s0.shouldFetch = true := by
    unfold transactions_iter_init at hinit
    cases hreq : req.options with
    | none =>
        rw [hreq] at hinit
        exact absurd hinit (by simp)
    | some opts =>
        rw [hreq] at hinit
        have h0 := Option.some.inj hinit
        rw [← h0]
        rfl
  exact main s0 hc hf

/-- C8 witness: a freshly initialized iterator whose first page fetch fails
with a transport error yields zero batches and exactly one error. -/
theorem txDrain_error_terminates_witness :
    txDrain txFetchRefused (3 + 1) witnessTxState
      = ([Except.error (ClientError.http (HttpError.connection "connection refused"))], 1) :=
  (txDrain_error_terminates txFetchRefused
      (ClientError.http (HttpError.connection "connection refused")) 3).2
    witnessTxRequest witnessTxState rfl rfl

end Rplaid
